import Mathlib

/-!
Shallow embedding of the Lavo Exchange backend (src/backend/main.py).

Balances and monetary amounts are modelled as exact rationals (`ℚ`); the
source stores them as Python floats, whose arithmetic the spec treats as
exact real arithmetic ("multi-asset precision/decimal handling beyond
floating-point amounts" is out of scope).

The persistence layer (`database.py`) is modelled as total maps from
string ids to optional records; wallet balances as a total map
`user_id → asset → ℚ` (all wallets provisioned, per `ensure_wallets`).
Each HTTP handler that mutates state is embedded as a pure function
`ExchangeState → args → ExchangeState × Option ApiError`; every `raise`
in the source happens before any database write inside the handler, so
a failure leaves the state exactly as it was, which the embedding makes
explicit by returning the input state with the error.

Timestamps are seconds since an arbitrary epoch (ℕ); Python's
`timedelta.days` on a nonnegative difference is the floor of whole days,
embedded as Nat division by 86400.
-/

namespace Lavo

/-- Supported assets, `ASSETS` in main.py line 46. -/
def ASSETS : List String := ["BTC", "ETH", "USDT"]

/-- Supported trading pairs, `PAIRS` in main.py line 47. -/
def PAIRS : List String := ["BTC-USDT", "ETH-USDT"]

/-- Failure taxonomy of the spec (§7), as raised by the handlers:
`unsupportedAsset` = HTTP 400 "Unsupported asset";
`insufficientFunds` = the three "Insufficient ..." 400s and
"Insufficient funds at approval"; `notFound` = 404s; `forbidden` = 403s;
`invalidState` = 400 "Invalid trade"/"Invalid subscription"/non-active
offer; `invalidInput` = 400 "Unsupported pair"/"Invalid side"/"Amount
out of bounds"; `durabilityFailure` = a credit that cannot be durably
recorded (spec §4.3). -/
inductive ApiError where
  | unsupportedAsset
  | insufficientFunds
  | notFound
  | forbidden
  | invalidState
  | invalidInput
  | durabilityFailure
deriving DecidableEq, Repr

inductive DepStatus where
  | pending | completed | failed
deriving DecidableEq, Repr

inductive WdStatus where
  | pending | approved | rejected | sent
deriving DecidableEq, Repr

inductive OrdStatus where
  | filled | rejected
deriving DecidableEq, Repr

inductive TrStatus where
  | escrow | released | cancelled
deriving DecidableEq, Repr

inductive SubStatus where
  | accruing | redeemed | cancelled
deriving DecidableEq, Repr

/-- A `deposit` collection record (schemas.py `Deposit`). -/
structure Deposit where
  user_id : String
  asset : String
  amount : ℚ
  status : DepStatus
deriving DecidableEq, Repr

/-- A `withdrawal` collection record (schemas.py `Withdrawal`). -/
structure Withdrawal where
  user_id : String
  asset : String
  amount : ℚ
  to_address : String
  status : WdStatus
deriving DecidableEq, Repr

/-- An `order` collection record (schemas.py `Order`). -/
structure Order where
  user_id : String
  side : String
  pair : String
  amount : ℚ
  price_executed : ℚ
  status : OrdStatus
deriving DecidableEq, Repr

/-- A `p2poffer` collection record (schemas.py `P2POffer`). -/
structure P2POffer where
  user_id : String
  asset : String
  side : String
  price : ℚ
  min_amount : ℚ
  max_amount : ℚ
  status : String
deriving DecidableEq, Repr

/-- A `p2ptrade` collection record (schemas.py `P2PTrade`). -/
structure P2PTrade where
  offer_id : String
  buyer_id : String
  seller_id : String
  asset : String
  amount : ℚ
  price : ℚ
  status : TrStatus
deriving DecidableEq, Repr

/-- An `earnproduct` collection record (schemas.py `EarnProduct`). -/
structure EarnProduct where
  asset : String
  apy : ℚ
  lock_days : ℕ
  status : String
deriving DecidableEq, Repr

/-- An `earnsubscription` collection record (schemas.py `EarnSubscription`).
`start_date` and `end_date` are timestamps in seconds. -/
structure EarnSubscription where
  user_id : String
  product_id : String
  amount : ℚ
  start_date : ℕ
  end_date : Option ℕ
  status : SubStatus
deriving DecidableEq, Repr

/-- The database state visible to the embedded handlers: wallet balances
keyed by (user_id, asset) and the record collections keyed by id. -/
structure ExchangeState where
  balances : String → String → ℚ
  deposits : String → Option Deposit
  withdrawals : String → Option Withdrawal
  orders : String → Option Order
  offers : String → Option P2POffer
  trades : String → Option P2PTrade
  products : String → Option EarnProduct
  subs : String → Option EarnSubscription

/-- `create_document`/`update_document` on a record collection: point
update of the record stored under id `i0`. -/
def insRec {α : Type} (f : String → Option α) (i0 : String) (v : α) :
    String → Option α :=
  fun i => if i = i0 then some v else f i

/-- `update_document("wallet", {"_id": w["_id"]}, {"balance": v})`:
point update of one wallet's balance. -/
def setBal (s : ExchangeState) (u a : String) (v : ℚ) : ExchangeState :=
  { s with balances := fun u2 a2 => if u2 = u ∧ a2 = a then v else s.balances u2 a2 }

/-- Store a `deposit` record under id `i`. -/
def putDeposit (s : ExchangeState) (i : String) (d : Deposit) : ExchangeState :=
  { s with deposits := insRec s.deposits i d }

/-- Store a `withdrawal` record under id `i`. -/
def putWithdrawal (s : ExchangeState) (i : String) (w : Withdrawal) : ExchangeState :=
  { s with withdrawals := insRec s.withdrawals i w }

/-- Store a `p2ptrade` record under id `i`. -/
def putTrade (s : ExchangeState) (i : String) (t : P2PTrade) : ExchangeState :=
  { s with trades := insRec s.trades i t }

/-- Store an `earnsubscription` record under id `i`. -/
def putSub (s : ExchangeState) (i : String) (e : EarnSubscription) : ExchangeState :=
  { s with subs := insRec s.subs i e }

/-- `POST /deposit` (main.py lines 145-160): reject unsupported assets,
record the deposit as `completed`, credit the wallet by `amount`
(no sign check on `amount`). -/
def deposit (s : ExchangeState) (uid asset : String) (amount : ℚ) (depId : String) :
    ExchangeState × Option ApiError :=
  if asset ∉ ASSETS then (s, some ApiError.unsupportedAsset)
  else
    let s1 := putDeposit s depId ⟨uid, asset, amount, DepStatus.completed⟩
    (setBal s1 uid asset (s1.balances uid asset + amount), none)

/-- `POST /withdraw` (main.py lines 168-184): reject unsupported assets,
reject when `balance < amount`, otherwise record a `pending` withdrawal
without touching the balance. -/
def withdraw (s : ExchangeState) (uid asset : String) (amount : ℚ)
    (to_address wdId : String) : ExchangeState × Option ApiError :=
  if asset ∉ ASSETS then (s, some ApiError.unsupportedAsset)
  else if s.balances uid asset < amount then (s, some ApiError.insufficientFunds)
  else
    (putWithdrawal s wdId ⟨uid, asset, amount, to_address, WdStatus.pending⟩, none)

/-- `POST /admin/withdrawals/approve` (main.py lines 190-207): admin only;
on `approve = true`, fail when the wallet balance is below the
withdrawal amount, otherwise debit the wallet and mark the withdrawal
`sent`; on `approve = false`, mark it `rejected`. -/
def approve_withdrawal (s : ExchangeState) (isAdmin : Bool) (wdId : String)
    (approve : Bool) : ExchangeState × Option ApiError :=
  if ¬ isAdmin then (s, some ApiError.forbidden)
  else
    match s.withdrawals wdId with
    | none => (s, some ApiError.notFound)
    | some wd =>
      if approve then
        if s.balances wd.user_id wd.asset < wd.amount then
          (s, some ApiError.insufficientFunds)
        else
          let s1 := setBal s wd.user_id wd.asset
            (s.balances wd.user_id wd.asset - wd.amount)
          (putWithdrawal s1 wdId { wd with status := WdStatus.sent }, none)
      else
        (putWithdrawal s wdId { wd with status := WdStatus.rejected }, none)

/-- Split a character list at the first dash. -/
def splitDash : List Char → List Char × List Char
  | [] => ([], [])
  | c :: rest =>
    if c = '-' then ([], rest)
    else
      let p := splitDash rest
      (c :: p.1, p.2)

/-- `base, quote = body.pair.split("-")` as used in main.py line 228: the
part before the dash and the part after it (the supported pairs contain
exactly one dash, checked before the split). -/
def splitPair (pair : String) : String × String :=
  (String.mk (splitDash pair.data).1, String.mk (splitDash pair.data).2)

/-- Insertion of the filled `order` record (main.py lines 248-256). -/
def recordOrder (s : ExchangeState) (uid side pair : String) (amount price : ℚ)
    (orderId : String) : ExchangeState :=
  { s with orders :=
      insRec s.orders orderId ⟨uid, side, pair, amount, price, OrdStatus.filled⟩ }

/-- `POST /trade/order` (main.py lines 222-257). `price` is the quote the
external feed returned; buy debits `amount * price` of the quote asset
(guarded) then credits `amount` of the base asset; sell debits `amount`
of the base asset (guarded) then credits `amount * price` of the quote
asset; the filled order record is inserted on success. -/
def market_order (s : ExchangeState) (uid side pair : String) (amount price : ℚ)
    (orderId : String) : ExchangeState × Option ApiError :=
  if pair ∉ PAIRS then (s, some ApiError.invalidInput)
  else
    let base := (splitPair pair).1
    let quote := (splitPair pair).2
    if side = "buy" then
      let cost := amount * price
      if s.balances uid quote < cost then (s, some ApiError.insufficientFunds)
      else
        let s1 := setBal s uid quote (s.balances uid quote - cost)
        let s2 := setBal s1 uid base (s1.balances uid base + amount)
        (recordOrder s2 uid side pair amount price orderId, none)
    else if side = "sell" then
      if s.balances uid base < amount then (s, some ApiError.insufficientFunds)
      else
        let s1 := setBal s uid base (s.balances uid base - amount)
        let s2 := setBal s1 uid quote (s1.balances uid quote + amount * price)
        (recordOrder s2 uid side pair amount price orderId, none)
    else (s, some ApiError.invalidInput)

/-- `POST /p2p/deal` (main.py lines 309-337): offer must exist and be
`active`; amount must lie within the offer bounds; the seller is the
offer maker for a sell offer and the caller otherwise; the seller's
wallet is debited into escrow (guarded) and an `escrow` trade record is
created. -/
def p2p_deal (s : ExchangeState) (callerId offerId : String) (amount : ℚ)
    (tradeId : String) : ExchangeState × Option ApiError :=
  match s.offers offerId with
  | none => (s, some ApiError.notFound)
  | some offer =>
    if offer.status ≠ "active" then (s, some ApiError.invalidState)
    else if amount < offer.min_amount ∨ offer.max_amount < amount then
      (s, some ApiError.invalidInput)
    else
      let seller_id := if offer.side = "sell" then offer.user_id else callerId
      let buyer_id := if offer.side = "sell" then callerId else offer.user_id
      if s.balances seller_id offer.asset < amount then
        (s, some ApiError.insufficientFunds)
      else
        let s1 := setBal s seller_id offer.asset
          (s.balances seller_id offer.asset - amount)
        let trade : P2PTrade :=
          ⟨offerId, buyer_id, seller_id, offer.asset, amount, offer.price,
           TrStatus.escrow⟩
        (putTrade s1 tradeId trade, none)

/-- `POST /p2p/release` (main.py lines 342-355): the trade must exist and
be in `escrow` (both failures raise the same 400 "Invalid trade"),
checked BEFORE the seller-identity check (403 "Only seller can
release"); on success the buyer is credited and the trade becomes
`released`. -/
def p2p_release (s : ExchangeState) (callerId tradeId : String) :
    ExchangeState × Option ApiError :=
  match s.trades tradeId with
  | none => (s, some ApiError.invalidState)
  | some trade =>
    if trade.status ≠ TrStatus.escrow then (s, some ApiError.invalidState)
    else if trade.seller_id ≠ callerId then (s, some ApiError.forbidden)
    else
      let s1 := setBal s trade.buyer_id trade.asset
        (s.balances trade.buyer_id trade.asset + trade.amount)
      (putTrade s1 tradeId { trade with status := TrStatus.released }, none)

/-- `POST /earn/subscribe` (main.py lines 386-403): the product lookup
filters on `status = "active"`; the wallet in the product's asset is
debited (guarded) and an `accruing` subscription with
`start_date = now` is created. -/
def subscribe (s : ExchangeState) (uid productId : String) (amount : ℚ)
    (subId : String) (now : ℕ) : ExchangeState × Option ApiError :=
  match s.products productId with
  | none => (s, some ApiError.notFound)
  | some prod =>
    if prod.status ≠ "active" then (s, some ApiError.notFound)
    else if s.balances uid prod.asset < amount then
      (s, some ApiError.insufficientFunds)
    else
      let s1 := setBal s uid prod.asset (s.balances uid prod.asset - amount)
      (putSub s1 subId ⟨uid, productId, amount, now, none, SubStatus.accruing⟩, none)

/-- `(datetime.utcnow() - sub["start_date"]).days` (main.py line 412) for
a monotone clock: whole days elapsed, floored (Nat division). -/
def daysElapsed (start_date now : ℕ) : ℕ := (now - start_date) / 86400

/-- `reward = amount * (apy / 100.0) * (days / 365)` (main.py lines
413-414). -/
def redeemReward (amount apy : ℚ) (days : ℕ) : ℚ :=
  amount * (apy / 100) * ((days : ℚ) / 365)

/-- `POST /earn/redeem` (main.py lines 405-419): the subscription lookup
filters on `_id` and `user_id`; it must be `accruing`; the wallet in
the product's asset is credited with principal plus reward and the
subscription becomes `redeemed` with `end_date = now`. The source
would crash on a dangling `product_id`; the embedding returns
`notFound` there (unreachable through the embedded operations, which
only create subscriptions against existing products). -/
def redeem (s : ExchangeState) (uid subId : String) (now : ℕ) :
    ExchangeState × Option ApiError :=
  match s.subs subId with
  | none => (s, some ApiError.invalidState)
  | some sub =>
    if sub.user_id ≠ uid then (s, some ApiError.invalidState)
    else if sub.status ≠ SubStatus.accruing then (s, some ApiError.invalidState)
    else
      match s.products sub.product_id with
      | none => (s, some ApiError.notFound)
      | some prod =>
        let reward := redeemReward sub.amount prod.apy (daysElapsed sub.start_date now)
        let s1 := setBal s uid prod.asset
          (s.balances uid prod.asset + sub.amount + reward)
        (putSub s1 subId { sub with status := SubStatus.redeemed, end_date := some now },
         none)

/-- Modelled from the spec: §4.3 Balance Mutation Engine,
`transfer(fromUser, toUser, asset, amount)` — this operation is absent
from the source (main.py inlines every balance mutation and exposes no
transfer endpoint). Per the spec it is composed as debit(from) then
credit(to); `creditDurable` models whether the credit can be durably
recorded; when it cannot, the already-applied debit is rolled back and
the operation fails, so the pair is atomic. -/
def transfer (s : ExchangeState) (fromUser toUser asset : String) (amount : ℚ)
    (creditDurable : Bool) : ExchangeState × Option ApiError :=
  if amount ≤ 0 then (s, some ApiError.invalidInput)
  else if s.balances fromUser asset < amount then (s, some ApiError.insufficientFunds)
  else
    let s1 := setBal s fromUser asset (s.balances fromUser asset - amount)
    if creditDurable then
      (setBal s1 toUser asset (s1.balances toUser asset + amount), none)
    else
      (setBal s1 fromUser asset (s1.balances fromUser asset + amount),
       some ApiError.durabilityFailure)

/-- A freshly provisioned store: every wallet exists with balance 0
(`ensure_wallets` provisions all supported assets at zero), no deposit,
withdrawal, order, trade or subscription records; P2P offers and earn
products may pre-exist, as deals and subscriptions refer to them. -/
def freshState (offers : String → Option P2POffer)
    (products : String → Option EarnProduct) : ExchangeState :=
  ⟨fun _ _ => 0, fun _ => none, fun _ => none, fun _ => none, offers,
   fun _ => none, products, fun _ => none⟩

def emptyOffers : String → Option P2POffer := fun _ => none

def emptyProducts : String → Option EarnProduct := fun _ => none

/-- One operation at the public money-moving interface, with the
identifiers the persistence layer would generate passed explicitly. -/
inductive Op where
  | deposit (uid asset : String) (amount : ℚ) (depId : String)
  | withdraw (uid asset : String) (amount : ℚ) (to_address wdId : String)
  | approve_withdrawal (isAdmin : Bool) (wdId : String) (ok : Bool)
  | market_order (uid side pair : String) (amount price : ℚ) (orderId : String)
  | p2p_deal (callerId offerId : String) (amount : ℚ) (tradeId : String)
  | p2p_release (callerId tradeId : String)
  | subscribe (uid productId : String) (amount : ℚ) (subId : String) (now : ℕ)
  | redeem (uid subId : String) (now : ℕ)

/-- Run one operation; a failed handler leaves the store as it was
(every `raise` in the source precedes the handler's first write). -/
def applyOp (s : ExchangeState) : Op → ExchangeState
  | .deposit uid asset amount depId => (deposit s uid asset amount depId).1
  | .withdraw uid asset amount addr wdId => (withdraw s uid asset amount addr wdId).1
  | .approve_withdrawal isAdmin wdId ok => (approve_withdrawal s isAdmin wdId ok).1
  | .market_order uid side pair amount price orderId =>
      (market_order s uid side pair amount price orderId).1
  | .p2p_deal callerId offerId amount tradeId =>
      (p2p_deal s callerId offerId amount tradeId).1
  | .p2p_release callerId tradeId => (p2p_release s callerId tradeId).1
  | .subscribe uid productId amount subId now =>
      (subscribe s uid productId amount subId now).1
  | .redeem uid subId now => (redeem s uid subId now).1

def runOps (s : ExchangeState) (ops : List Op) : ExchangeState :=
  ops.foldl applyOp s

/-- Well-formed request: every amount handed to an operation that credits
it somewhere is nonnegative, and quoted prices are nonnegative. The
source never checks these signs. -/
def goodOp : Op → Prop
  | .deposit _ _ amount _ => 0 ≤ amount
  | .market_order _ _ _ amount price _ => 0 ≤ amount ∧ 0 ≤ price
  | .p2p_deal _ _ amount _ => 0 ≤ amount
  | .subscribe _ _ amount _ _ => 0 ≤ amount
  | _ => True

/-- The ledger invariant: all balances nonnegative, every recorded trade
and subscription carries a nonnegative amount, every product a
nonnegative apy. -/
structure Inv (s : ExchangeState) : Prop where
  bal : ∀ u a, 0 ≤ s.balances u a
  tr : ∀ i t, s.trades i = some t → 0 ≤ t.amount
  sb : ∀ i e, s.subs i = some e → 0 ≤ e.amount
  pr : ∀ i p, s.products i = some p → 0 ≤ p.apy

/-- A small concrete balance table used to exercise the operations:
`u1` holds 1 BTC and 2000 USDT, `maker` holds 5 BTC, everyone else
nothing. -/
def demoBal : String → String → ℚ := fun u a =>
  if u = "u1" ∧ a = "BTC" then 1
  else if u = "u1" ∧ a = "USDT" then 2000
  else if u = "maker" ∧ a = "BTC" then 5
  else 0

def demoWd : Withdrawal := ⟨"u1", "BTC", 2, "addr1", WdStatus.pending⟩

def demoOffer : P2POffer := ⟨"maker", "BTC", "sell", 100, 1, 2, "active"⟩

def demoOffer2 : P2POffer := ⟨"poor", "BTC", "sell", 100, 1, 10, "active"⟩

def demoTradeReleased : P2PTrade := ⟨"of1", "buyer", "seller", "BTC", 1, 100, TrStatus.released⟩

def demoTradeEscrow : P2PTrade := ⟨"of1", "buyer", "seller", "BTC", 1, 100, TrStatus.escrow⟩

def demoProduct : EarnProduct := ⟨"BTC", 10, 30, "active"⟩

def demoSub : EarnSubscription := ⟨"saver", "p1", 100, 0, none, SubStatus.accruing⟩

/-- A concrete store used to exercise the operations on explicit inputs. -/
def demoState : ExchangeState :=
  ⟨demoBal,
   fun _ => none,
   insRec (fun _ => none) "w1" demoWd,
   fun _ => none,
   insRec (insRec (fun _ => none) "of1" demoOffer) "of2" demoOffer2,
   insRec (insRec (fun _ => none) "t1" demoTradeReleased) "t2" demoTradeEscrow,
   insRec (fun _ => none) "p1" demoProduct,
   insRec (fun _ => none) "s1" demoSub⟩

/-- A self-trade setup: `alice` posted a sell offer and takes it herself. -/
def selfOffer : P2POffer := ⟨"alice", "BTC", "sell", 100, 1, 2, "active"⟩

def selfState : ExchangeState :=
  ⟨fun u a => if u = "alice" ∧ a = "BTC" then 1 else 0,
   fun _ => none,
   fun _ => none,
   fun _ => none,
   insRec (fun _ => none) "of1" selfOffer,
   fun _ => none,
   fun _ => none,
   fun _ => none⟩

theorem insRec_self {α : Type} (f : String → Option α) (i0 : String) (v : α) :
    insRec f i0 v i0 = some v := by
  simp [insRec]

theorem insRec_other {α : Type} (f : String → Option α) (i0 : String) (v : α)
    (i : String) (h : i ≠ i0) : insRec f i0 v i = f i := by
  simp [insRec, h]

theorem setBal_self (s : ExchangeState) (u a : String) (v : ℚ) :
    (setBal s u a v).balances u a = v := by
  simp [setBal]

theorem setBal_other (s : ExchangeState) (u a : String) (v : ℚ) (u2 a2 : String)
    (h : ¬(u2 = u ∧ a2 = a)) : (setBal s u a v).balances u2 a2 = s.balances u2 a2 := by
  simp only [setBal]
  exact if_neg h

theorem setBal_balances_apply (s : ExchangeState) (u a : String) (v : ℚ)
    (u2 a2 : String) :
    (setBal s u a v).balances u2 a2
      = if u2 = u ∧ a2 = a then v else s.balances u2 a2 := rfl

theorem setBal_withdrawals (s : ExchangeState) (u a : String) (v : ℚ) :
    (setBal s u a v).withdrawals = s.withdrawals := rfl

theorem setBal_trades (s : ExchangeState) (u a : String) (v : ℚ) :
    (setBal s u a v).trades = s.trades := rfl

theorem setBal_subs (s : ExchangeState) (u a : String) (v : ℚ) :
    (setBal s u a v).subs = s.subs := rfl

theorem setBal_products (s : ExchangeState) (u a : String) (v : ℚ) :
    (setBal s u a v).products = s.products := rfl

theorem setBal_offers (s : ExchangeState) (u a : String) (v : ℚ) :
    (setBal s u a v).offers = s.offers := rfl

theorem setBal_deposits (s : ExchangeState) (u a : String) (v : ℚ) :
    (setBal s u a v).deposits = s.deposits := rfl

theorem putDeposit_balances (s : ExchangeState) (i : String) (d : Deposit) :
    (putDeposit s i d).balances = s.balances := rfl

theorem putDeposit_deposits (s : ExchangeState) (i : String) (d : Deposit) :
    (putDeposit s i d).deposits = insRec s.deposits i d := rfl

theorem putWithdrawal_balances (s : ExchangeState) (i : String) (w : Withdrawal) :
    (putWithdrawal s i w).balances = s.balances := rfl

theorem putWithdrawal_withdrawals (s : ExchangeState) (i : String) (w : Withdrawal) :
    (putWithdrawal s i w).withdrawals = insRec s.withdrawals i w := rfl

theorem putTrade_balances (s : ExchangeState) (i : String) (t : P2PTrade) :
    (putTrade s i t).balances = s.balances := rfl

theorem putTrade_trades (s : ExchangeState) (i : String) (t : P2PTrade) :
    (putTrade s i t).trades = insRec s.trades i t := rfl

theorem putSub_balances (s : ExchangeState) (i : String) (e : EarnSubscription) :
    (putSub s i e).balances = s.balances := rfl

theorem putSub_subs (s : ExchangeState) (i : String) (e : EarnSubscription) :
    (putSub s i e).subs = insRec s.subs i e := rfl

theorem recordOrder_balances (s : ExchangeState) (uid side pair : String)
    (amount price : ℚ) (orderId : String) :
    (recordOrder s uid side pair amount price orderId).balances = s.balances := rfl

theorem splitPair_btc : splitPair "BTC-USDT" = ("BTC", "USDT") := rfl

theorem splitPair_eth : splitPair "ETH-USDT" = ("ETH", "USDT") := rfl

theorem insRec_cases {α : Type} {f : String → Option α} {i0 : String} {v : α}
    {i : String} {x : α} (h : insRec f i0 v i = some x) : x = v ∨ f i = some x := by
  by_cases hi : i = i0
  · left
    simpa [insRec, hi] using h.symm
  · right
    simpa [insRec, hi] using h

theorem inv_of_fields {s t : ExchangeState} (h : Inv s)
    (hb : t.balances = s.balances) (ht : t.trades = s.trades)
    (hs : t.subs = s.subs) (hp : t.products = s.products) : Inv t := by
  refine ⟨?_, ?_, ?_, ?_⟩
  · rw [hb]; exact h.bal
  · rw [ht]; exact h.tr
  · rw [hs]; exact h.sb
  · rw [hp]; exact h.pr

theorem inv_setBal {s : ExchangeState} (h : Inv s) (u a : String) {v : ℚ}
    (hv : 0 ≤ v) : Inv (setBal s u a v) := by
  refine ⟨?_, h.tr, h.sb, h.pr⟩
  intro u2 a2
  simp only [setBal]
  split_ifs
  · exact hv
  · exact h.bal u2 a2

theorem inv_putTrade {s : ExchangeState} (h : Inv s) (i : String) {t : P2PTrade}
    (ht : 0 ≤ t.amount) : Inv (putTrade s i t) := by
  refine ⟨h.bal, ?_, h.sb, h.pr⟩
  intro j x hx
  rcases insRec_cases hx with he | he
  · rw [he]; exact ht
  · exact h.tr j x he

theorem inv_putSub {s : ExchangeState} (h : Inv s) (i : String) {e : EarnSubscription}
    (he : 0 ≤ e.amount) : Inv (putSub s i e) := by
  refine ⟨h.bal, h.tr, ?_, h.pr⟩
  intro j x hx
  rcases insRec_cases hx with hq | hq
  · rw [hq]; exact he
  · exact h.sb j x hq

theorem inv_putDeposit {s : ExchangeState} (h : Inv s) (i : String) (d : Deposit) :
    Inv (putDeposit s i d) :=
  inv_of_fields h rfl rfl rfl rfl

theorem inv_putWithdrawal {s : ExchangeState} (h : Inv s) (i : String)
    (w : Withdrawal) : Inv (putWithdrawal s i w) :=
  inv_of_fields h rfl rfl rfl rfl

theorem inv_recordOrder {s : ExchangeState} (h : Inv s) (uid side pair : String)
    (amount price : ℚ) (orderId : String) :
    Inv (recordOrder s uid side pair amount price orderId) :=
  inv_of_fields h rfl rfl rfl rfl


theorem inv_setBal_setBal_add {s : ExchangeState} (h : Inv s) (u1 a1 u2 a2 : String)
    {v : ℚ} (hv : 0 ≤ v) {d : ℚ} (hd : 0 ≤ d) :
    Inv (setBal (setBal s u1 a1 v) u2 a2 ((setBal s u1 a1 v).balances u2 a2 + d)) :=
  inv_setBal (inv_setBal h u1 a1 hv) u2 a2
    (add_nonneg ((inv_setBal h u1 a1 hv).bal u2 a2) hd)

theorem inv_deposit {s : ExchangeState} (h : Inv s) (uid asset : String) {amount : ℚ}
    (hamt : 0 ≤ amount) (depId : String) : Inv (deposit s uid asset amount depId).1 := by
  simp only [deposit]
  try split_ifs
  all_goals first
    | exact h
    | exact inv_setBal (inv_putDeposit h depId _) uid asset
        (add_nonneg (h.bal uid asset) hamt)

theorem inv_withdraw {s : ExchangeState} (h : Inv s) (uid asset : String)
    (amount : ℚ) (addr wdId : String) :
    Inv (withdraw s uid asset amount addr wdId).1 := by
  simp only [withdraw]
  try split_ifs
  all_goals first
    | exact h
    | exact inv_putWithdrawal h wdId _

theorem inv_approve {s : ExchangeState} (h : Inv s) (isAdmin : Bool) (wdId : String)
    (ok : Bool) : Inv (approve_withdrawal s isAdmin wdId ok).1 := by
  rcases hw : s.withdrawals wdId with _ | wd <;> simp only [approve_withdrawal, hw] <;>
    try split_ifs
  all_goals first
    | exact h
    | exact inv_putWithdrawal h wdId _
    | (rename_i hlt
       exact inv_putWithdrawal
        (inv_setBal h wd.user_id wd.asset (sub_nonneg.mpr (not_lt.mp hlt))) wdId _)

theorem inv_market_order {s : ExchangeState} (h : Inv s) (uid side pair : String)
    {amount price : ℚ} (hamt : 0 ≤ amount) (hpr : 0 ≤ price) (orderId : String) :
    Inv (market_order s uid side pair amount price orderId).1 := by
  simp only [market_order]
  try split_ifs
  all_goals first
    | exact h
    | (rename_i hlt
       exact inv_recordOrder
        (inv_setBal_setBal_add h uid (splitPair pair).2 uid (splitPair pair).1
          (sub_nonneg.mpr (not_lt.mp hlt)) hamt) uid side pair amount price orderId)
    | (rename_i hlt
       exact inv_recordOrder
        (inv_setBal_setBal_add h uid (splitPair pair).1 uid (splitPair pair).2
          (sub_nonneg.mpr (not_lt.mp hlt)) (mul_nonneg hamt hpr))
        uid side pair amount price orderId)

theorem inv_p2p_deal {s : ExchangeState} (h : Inv s) (callerId offerId : String)
    {amount : ℚ} (hamt : 0 ≤ amount) (tradeId : String) :
    Inv (p2p_deal s callerId offerId amount tradeId).1 := by
  rcases ho : s.offers offerId with _ | offer <;> simp only [p2p_deal, ho] <;>
    try split_ifs
  all_goals first
    | exact h
    | (rename_i hlt
       exact inv_putTrade
        (inv_setBal h offer.user_id offer.asset (sub_nonneg.mpr (not_lt.mp hlt)))
        tradeId hamt)
    | (rename_i hlt
       exact inv_putTrade
        (inv_setBal h callerId offer.asset (sub_nonneg.mpr (not_lt.mp hlt)))
        tradeId hamt)

theorem inv_p2p_release {s : ExchangeState} (h : Inv s) (callerId tradeId : String) :
    Inv (p2p_release s callerId tradeId).1 := by
  rcases ht : s.trades tradeId with _ | trade <;> simp only [p2p_release, ht] <;>
    try split_ifs
  all_goals first
    | exact h
    | exact inv_putTrade
        (inv_setBal h trade.buyer_id trade.asset
          (add_nonneg (h.bal trade.buyer_id trade.asset) (h.tr tradeId trade ht)))
        tradeId (h.tr tradeId trade ht)

theorem inv_subscribe {s : ExchangeState} (h : Inv s) (uid productId : String)
    {amount : ℚ} (hamt : 0 ≤ amount) (subId : String) (now : ℕ) :
    Inv (subscribe s uid productId amount subId now).1 := by
  rcases hp : s.products productId with _ | prod <;> simp only [subscribe, hp] <;>
    try split_ifs
  all_goals first
    | exact h
    | (rename_i hlt
       exact inv_putSub
        (inv_setBal h uid prod.asset (sub_nonneg.mpr (not_lt.mp hlt))) subId hamt)

theorem inv_redeem {s : ExchangeState} (h : Inv s) (uid subId : String) (now : ℕ) :
    Inv (redeem s uid subId now).1 := by
  rcases he : s.subs subId with _ | sub <;> simp only [redeem, he]
  · exact h
  rcases hp : s.products sub.product_id with _ | prod <;> simp only [hp] <;>
    try split_ifs
  all_goals first
    | exact h
    | exact inv_putSub
        (inv_setBal h uid prod.asset
          (add_nonneg (add_nonneg (h.bal uid prod.asset) (h.sb subId sub he))
            (mul_nonneg (mul_nonneg (h.sb subId sub he)
                (div_nonneg (h.pr sub.product_id prod hp) (by norm_num)))
              (div_nonneg (Nat.cast_nonneg _) (by norm_num)))))
        subId (h.sb subId sub he)

theorem inv_applyOp {s : ExchangeState} (h : Inv s) (op : Op) (hop : goodOp op) :
    Inv (applyOp s op) := by
  cases op with
  | deposit uid asset amount depId =>
    have hg : (0 : ℚ) ≤ amount := hop
    exact inv_deposit h uid asset hg depId
  | withdraw uid asset amount addr wdId =>
    exact inv_withdraw h uid asset amount addr wdId
  | approve_withdrawal isAdmin wdId ok => exact inv_approve h isAdmin wdId ok
  | market_order uid side pair amount price orderId =>
    have hg : (0 : ℚ) ≤ amount ∧ (0 : ℚ) ≤ price := hop
    exact inv_market_order h uid side pair hg.1 hg.2 orderId
  | p2p_deal callerId offerId amount tradeId =>
    have hg : (0 : ℚ) ≤ amount := hop
    exact inv_p2p_deal h callerId offerId hg tradeId
  | p2p_release callerId tradeId => exact inv_p2p_release h callerId tradeId
  | subscribe uid productId amount subId now =>
    have hg : (0 : ℚ) ≤ amount := hop
    exact inv_subscribe h uid productId hg subId now
  | redeem uid subId now => exact inv_redeem h uid subId now

theorem inv_runOps {s : ExchangeState} (h : Inv s) (ops : List Op)
    (hops : ∀ op ∈ ops, goodOp op) : Inv (runOps s ops) := by
  induction ops generalizing s with
  | nil => exact h
  | cons op rest ih =>
    exact ih (inv_applyOp h op (hops op (List.mem_cons_self op rest)))
      (fun o ho => hops o (List.mem_cons_of_mem op ho))

theorem inv_freshState (offers : String → Option P2POffer)
    (products : String → Option EarnProduct)
    (hp : ∀ i p, products i = some p → 0 ≤ p.apy) :
    Inv (freshState offers products) := by
  refine ⟨fun u a => le_refl 0, ?_, ?_, hp⟩ <;> intro i x hx <;>
    simp [freshState] at hx

/-- C1 (amended): starting from freshly provisioned zero-balance wallets,
with arbitrary pre-existing offers, and products whose apy is
nonnegative, after any sequence of public operations (deposit, withdrawal
request and approval, market order, P2P deal and release, earn subscribe
and redeem) whose deposit, market-order, P2P-deal and subscribe amounts
are nonnegative and whose quoted prices are nonnegative, every wallet
balance is ≥ 0; quantifying over all sequences covers every quiescent
point. -/
theorem c1_balances_nonneg (offers : String → Option P2POffer)
    (products : String → Option EarnProduct)
    (hprod : ∀ i p, products i = some p → 0 ≤ p.apy)
    (ops : List Op) (hops : ∀ op ∈ ops, goodOp op) (u a : String) :
    0 ≤ (runOps (freshState offers products) ops).balances u a :=
  (inv_runOps (inv_freshState offers products hprod) ops hops).bal u a

/-- C1 counterexample: from freshly provisioned zero-balance wallets, a
single public deposit of −5 BTC (accepted by the handler, which checks
no sign) leaves the wallet at −5 < 0, so the balance invariant fails as
claimed for arbitrary operation sequences. -/
theorem c1_counterexample :
    (runOps (freshState emptyOffers emptyProducts)
        [Op.deposit "u1" "BTC" (-5) "d1"]).balances "u1" "BTC" < 0 := by
  norm_num [runOps, applyOp, deposit, freshState, emptyOffers, emptyProducts,
    putDeposit, setBal, insRec, ASSETS]

/-- C1 witness: the amended theorem applied to the concrete sequence of a
single deposit of 5 BTC from a fresh store. -/
theorem c1_balances_nonneg_witness :
    0 ≤ (runOps (freshState emptyOffers emptyProducts)
        [Op.deposit "u1" "BTC" 5 "d1"]).balances "u1" "BTC" :=
  c1_balances_nonneg emptyOffers emptyProducts
    (fun i p hp => by simp [emptyProducts] at hp)
    [Op.deposit "u1" "BTC" 5 "d1"]
    (fun op hop => by
      simp only [List.mem_singleton] at hop
      subst hop
      show (0 : ℚ) ≤ 5
      norm_num)
    "u1" "BTC"

/-- C10: deposit performs no positivity check: for every amount (zero and
negative included) and supported asset it succeeds, sets the balance to
old + amount, records the deposit as completed, and a negative amount
strictly decreases the balance. -/
theorem c10_deposit_no_positivity_check (s : ExchangeState) (uid asset : String)
    (amount : ℚ) (depId : String) (hasset : asset ∈ ASSETS) :
    (deposit s uid asset amount depId).2 = none ∧
    (deposit s uid asset amount depId).1.balances uid asset
      = s.balances uid asset + amount ∧
    (deposit s uid asset amount depId).1.deposits depId
      = some ⟨uid, asset, amount, DepStatus.completed⟩ ∧
    (amount < 0 →
      (deposit s uid asset amount depId).1.balances uid asset
        < s.balances uid asset) := by
  have hd : deposit s uid asset amount depId
      = (setBal (putDeposit s depId ⟨uid, asset, amount, DepStatus.completed⟩) uid
          asset (s.balances uid asset + amount), none) := by
    rw [deposit, if_neg (not_not_intro hasset)]
    rfl
  rw [hd]
  refine ⟨rfl, setBal_self _ _ _ _, ?_, ?_⟩
  · rw [setBal_deposits, putDeposit_deposits]
    exact insRec_self _ _ _
  · intro hneg
    rw [setBal_self]
    linarith

/-- C10 witness: a deposit of −5 BTC on the demo store succeeds, records a
completed deposit, and strictly lowers the balance. -/
theorem c10_deposit_no_positivity_check_witness :
    (deposit demoState "u1" "BTC" (-5) "d1").2 = none ∧
    (deposit demoState "u1" "BTC" (-5) "d1").1.balances "u1" "BTC"
      = demoState.balances "u1" "BTC" + (-5) ∧
    (deposit demoState "u1" "BTC" (-5) "d1").1.deposits "d1"
      = some ⟨"u1", "BTC", -5, DepStatus.completed⟩ ∧
    (deposit demoState "u1" "BTC" (-5) "d1").1.balances "u1" "BTC"
      < demoState.balances "u1" "BTC" :=
  have h := c10_deposit_no_positivity_check demoState "u1" "BTC" (-5) "d1" (by decide)
  ⟨h.1, h.2.1, h.2.2.1, h.2.2.2 (by norm_num)⟩

/-- C6: a withdrawal request for a supported asset with amount ≤ balance
is recorded as pending with no balance change; the subsequent admin
approval debits exactly the amount and marks the withdrawal sent. -/
theorem c6_request_pending_then_approval_debits (s : ExchangeState)
    (uid asset : String) (amount : ℚ) (addr wdId : String)
    (hasset : asset ∈ ASSETS) (hamt : amount ≤ s.balances uid asset) :
    (withdraw s uid asset amount addr wdId).2 = none ∧
    (withdraw s uid asset amount addr wdId).1.withdrawals wdId
      = some ⟨uid, asset, amount, addr, WdStatus.pending⟩ ∧
    (∀ u a, (withdraw s uid asset amount addr wdId).1.balances u a
      = s.balances u a) ∧
    (approve_withdrawal (withdraw s uid asset amount addr wdId).1 true wdId
      true).2 = none ∧
    (approve_withdrawal (withdraw s uid asset amount addr wdId).1 true wdId
      true).1.balances uid asset = s.balances uid asset - amount ∧
    (approve_withdrawal (withdraw s uid asset amount addr wdId).1 true wdId
      true).1.withdrawals wdId = some ⟨uid, asset, amount, addr, WdStatus.sent⟩ := by
  have hw : withdraw s uid asset amount addr wdId
      = (putWithdrawal s wdId ⟨uid, asset, amount, addr, WdStatus.pending⟩, none) := by
    rw [withdraw, if_neg (not_not_intro hasset), if_neg (not_lt.mpr hamt)]
  have hrec : (putWithdrawal s wdId
        ⟨uid, asset, amount, addr, WdStatus.pending⟩).withdrawals wdId
      = some ⟨uid, asset, amount, addr, WdStatus.pending⟩ := by
    rw [putWithdrawal_withdrawals]
    exact insRec_self _ _ _
  have happ : approve_withdrawal (withdraw s uid asset amount addr wdId).1 true
        wdId true
      = (putWithdrawal
          (setBal (putWithdrawal s wdId ⟨uid, asset, amount, addr, WdStatus.pending⟩)
            uid asset (s.balances uid asset - amount))
          wdId ⟨uid, asset, amount, addr, WdStatus.sent⟩, none) := by
    rw [hw]
    simp [approve_withdrawal, hrec, putWithdrawal_balances, not_lt.mpr hamt]
  rw [happ, hw]
  refine ⟨rfl, hrec, fun u a => rfl, rfl, ?_, ?_⟩
  · rw [putWithdrawal_balances, setBal_self]
  · rw [putWithdrawal_withdrawals]
    exact insRec_self _ _ _

/-- C6 witness: on the demo store, `u1` (holding 1 BTC) requests a 0.4 BTC
withdrawal, which stays pending with balance 1; approval leaves 0.6 and
marks it sent. -/
theorem c6_request_pending_then_approval_debits_witness :
    (withdraw demoState "u1" "BTC" 0.4 "a2" "w2").2 = none ∧
    (withdraw demoState "u1" "BTC" 0.4 "a2" "w2").1.withdrawals "w2"
      = some ⟨"u1", "BTC", 0.4, "a2", WdStatus.pending⟩ ∧
    (∀ u a, (withdraw demoState "u1" "BTC" 0.4 "a2" "w2").1.balances u a
      = demoState.balances u a) ∧
    (approve_withdrawal (withdraw demoState "u1" "BTC" 0.4 "a2" "w2").1 true "w2"
      true).2 = none ∧
    (approve_withdrawal (withdraw demoState "u1" "BTC" 0.4 "a2" "w2").1 true "w2"
      true).1.balances "u1" "BTC" = demoState.balances "u1" "BTC" - 0.4 ∧
    (approve_withdrawal (withdraw demoState "u1" "BTC" 0.4 "a2" "w2").1 true "w2"
      true).1.withdrawals "w2" = some ⟨"u1", "BTC", 0.4, "a2", WdStatus.sent⟩ :=
  c6_request_pending_then_approval_debits demoState "u1" "BTC" 0.4 "a2" "w2"
    (by decide) (by norm_num [demoState, demoBal])

/-- C7: approving a withdrawal whose amount exceeds the current balance
fails with insufficient funds, changes nothing, and the withdrawal stays
pending (it is not moved to rejected or sent). -/
theorem c7_failed_approval_stays_pending (s : ExchangeState) (wdId : String)
    (wd : Withdrawal) (hwd : s.withdrawals wdId = some wd)
    (hpend : wd.status = WdStatus.pending)
    (hlt : s.balances wd.user_id wd.asset < wd.amount) :
    approve_withdrawal s true wdId true = (s, some ApiError.insufficientFunds) ∧
    (approve_withdrawal s true wdId true).1.balances wd.user_id wd.asset
      = s.balances wd.user_id wd.asset ∧
    (approve_withdrawal s true wdId true).1.withdrawals wdId = some wd ∧
    wd.status = WdStatus.pending := by
  have h1 : approve_withdrawal s true wdId true
      = (s, some ApiError.insufficientFunds) := by
    simp [approve_withdrawal, hwd, hlt]
  exact ⟨h1, by rw [h1], by rw [h1]; exact hwd, hpend⟩

/-- C7 witness: on the demo store, withdrawal `w1` asks for 2 BTC while
`u1` holds 1 BTC; approval fails and `w1` stays pending. -/
theorem c7_failed_approval_stays_pending_witness :
    approve_withdrawal demoState true "w1" true
      = (demoState, some ApiError.insufficientFunds) ∧
    (approve_withdrawal demoState true "w1" true).1.balances
      demoWd.user_id demoWd.asset
      = demoState.balances demoWd.user_id demoWd.asset ∧
    (approve_withdrawal demoState true "w1" true).1.withdrawals "w1"
      = some demoWd ∧
    demoWd.status = WdStatus.pending :=
  c7_failed_approval_stays_pending demoState "w1" demoWd
    (by simp [demoState, insRec]) rfl
    (by norm_num [demoState, demoBal, demoWd])


/-- C3: a debit of amount strictly greater than the wallet balance always
fails with insufficient funds and leaves the whole store unchanged, for
each of the four debiting operations: market sell, P2P deal escrow
reservation, earn subscribe, withdrawal approval. -/
theorem c3_overdraw_always_fails (s : ExchangeState) :
    (∀ uid pair amount price orderId, pair ∈ PAIRS →
      s.balances uid (splitPair pair).1 < amount →
      market_order s uid "sell" pair amount price orderId
        = (s, some ApiError.insufficientFunds)) ∧
    (∀ callerId offerId amount tradeId offer, s.offers offerId = some offer →
      offer.status = "active" →
      ¬(amount < offer.min_amount ∨ offer.max_amount < amount) →
      s.balances (if offer.side = "sell" then offer.user_id else callerId)
          offer.asset < amount →
      p2p_deal s callerId offerId amount tradeId
        = (s, some ApiError.insufficientFunds)) ∧
    (∀ uid productId amount subId now prod, s.products productId = some prod →
      prod.status = "active" →
      s.balances uid prod.asset < amount →
      subscribe s uid productId amount subId now
        = (s, some ApiError.insufficientFunds)) ∧
    (∀ wdId wd, s.withdrawals wdId = some wd →
      s.balances wd.user_id wd.asset < wd.amount →
      approve_withdrawal s true wdId true
        = (s, some ApiError.insufficientFunds)) := by
  refine ⟨?_, ?_, ?_, ?_⟩
  · intro uid pair amount price orderId hpair hlt
    simp [market_order, hpair, hlt]
  · intro callerId offerId amount tradeId offer hof hact hbounds hlt
    simp [p2p_deal, hof, hact, hbounds, hlt]
  · intro uid productId amount subId now prod hp hact hlt
    simp [subscribe, hp, hact, hlt]
  · intro wdId wd hwd hlt
    simp [approve_withdrawal, hwd, hlt]

/-- C3 witness: on the demo store, all four debiting operations fail with
insufficient funds at concrete overdrawing inputs and return the store
unchanged. -/
theorem c3_overdraw_always_fails_witness :
    market_order demoState "nobody" "sell" "BTC-USDT" 5 10 "o9"
      = (demoState, some ApiError.insufficientFunds) ∧
    p2p_deal demoState "u1" "of2" 7 "t9"
      = (demoState, some ApiError.insufficientFunds) ∧
    subscribe demoState "nobody" "p1" 1 "s9" 0
      = (demoState, some ApiError.insufficientFunds) ∧
    approve_withdrawal demoState true "w1" true
      = (demoState, some ApiError.insufficientFunds) := by
  have h := c3_overdraw_always_fails demoState
  refine ⟨?_, ?_, ?_, ?_⟩
  · exact h.1 "nobody" "BTC-USDT" 5 10 "o9" (by decide) (by decide)
  · exact h.2.1 "u1" "of2" 7 "t9" demoOffer2 (by simp [demoState, insRec])
      rfl (by decide) (by decide)
  · exact h.2.2.1 "nobody" "p1" 1 "s9" 0 demoProduct (by simp [demoState, insRec])
      rfl (by decide)
  · exact h.2.2.2 "w1" demoWd (by simp [demoState, insRec]) (by decide)

/-- C4: a market buy of `amount` base units at quoted price `price`
succeeds exactly when the quote balance covers `amount * price`; on
success, in one step, the quote balance drops by exactly the cost and
the base balance rises by exactly the amount; on failure nothing
changes. -/
theorem c4_market_buy_atomic (s : ExchangeState) (uid : String)
    (amount price : ℚ) (orderId pair : String) (hpair : pair ∈ PAIRS) :
    (amount * price ≤ s.balances uid (splitPair pair).2 →
      (market_order s uid "buy" pair amount price orderId).2 = none ∧
      (market_order s uid "buy" pair amount price orderId).1.balances uid
          (splitPair pair).2
        = s.balances uid (splitPair pair).2 - amount * price ∧
      (market_order s uid "buy" pair amount price orderId).1.balances uid
          (splitPair pair).1
        = s.balances uid (splitPair pair).1 + amount) ∧
    (s.balances uid (splitPair pair).2 < amount * price →
      market_order s uid "buy" pair amount price orderId
        = (s, some ApiError.insufficientFunds)) := by
  have hpair2 : pair = "BTC-USDT" ∨ pair = "ETH-USDT" := by
    simpa [PAIRS] using hpair
  have hbq : (splitPair pair).1 ≠ (splitPair pair).2 := by
    rcases hpair2 with h | h <;> subst h <;> decide
  constructor
  · intro hle
    refine ⟨?_, ?_, ?_⟩ <;>
      simp [market_order, hpair, not_lt.mpr hle, recordOrder, setBal, hbq,
        Ne.symm hbq]
  · intro hlt
    simp [market_order, hpair, hlt]

/-- C4 witness: on the demo store, `u1` (2000 USDT) buys 1 ETH quoted at
2000 USDT: the order succeeds, USDT drops by 2000, ETH rises by 1. -/
theorem c4_market_buy_atomic_witness :
    (market_order demoState "u1" "buy" "ETH-USDT" 1 2000 "o1").2 = none ∧
    (market_order demoState "u1" "buy" "ETH-USDT" 1 2000 "o1").1.balances "u1"
        (splitPair "ETH-USDT").2
      = demoState.balances "u1" (splitPair "ETH-USDT").2 - 1 * 2000 ∧
    (market_order demoState "u1" "buy" "ETH-USDT" 1 2000 "o1").1.balances "u1"
        (splitPair "ETH-USDT").1
      = demoState.balances "u1" (splitPair "ETH-USDT").1 + 1 :=
  (c4_market_buy_atomic demoState "u1" 1 2000 "o1" "ETH-USDT" (by decide)).1
    (by
      have hb : demoState.balances "u1" (splitPair "ETH-USDT").2 = 2000 := by decide
      rw [hb]
      norm_num)


/-- C2 (spec-modelled): the Balance Mutation Engine's transfer is atomic
across the debit/credit pair: when the composed operation reports
success both balance changes are applied, and on any failure (including
a credit that cannot be durably recorded, which rolls back the
already-applied debit) every balance is exactly as before. -/
theorem c2_transfer_atomic (s : ExchangeState) (fromUser toUser asset : String)
    (amount : ℚ) (creditDurable : Bool) (hne : fromUser ≠ toUser) :
    ((transfer s fromUser toUser asset amount creditDurable).2 = none ∧
      (transfer s fromUser toUser asset amount creditDurable).1.balances fromUser
          asset
        = s.balances fromUser asset - amount ∧
      (transfer s fromUser toUser asset amount creditDurable).1.balances toUser
          asset
        = s.balances toUser asset + amount) ∨
    ((transfer s fromUser toUser asset amount creditDurable).2 ≠ none ∧
      ∀ u a, (transfer s fromUser toUser asset amount creditDurable).1.balances u a
        = s.balances u a) := by
  unfold transfer
  split_ifs with h1 h2 h3
  · exact Or.inr ⟨by simp, fun u a => rfl⟩
  · exact Or.inr ⟨by simp, fun u a => rfl⟩
  · refine Or.inl ⟨rfl, ?_, ?_⟩
    · rw [setBal_balances_apply]
      rw [if_neg (fun hc => hne hc.1), setBal_self]
    · rw [setBal_self, setBal_balances_apply]
      rw [if_neg (fun hc => hne hc.1.symm)]
  · refine Or.inr ⟨by simp, fun u a => ?_⟩
    have hv : (setBal s fromUser asset
        (s.balances fromUser asset - amount)).balances fromUser asset
        = s.balances fromUser asset - amount := setBal_self _ _ _ _
    rw [setBal_balances_apply, hv, setBal_balances_apply]
    split_ifs with hc
    · rw [hc.1, hc.2]
      ring
    · rfl

/-- C2 witness: a durable 3-unit transfer between distinct users lands in
the success disjunct of the atomicity theorem. -/
theorem c2_transfer_atomic_witness :
    ((transfer demoState "u1" "maker" "BTC" 3 true).2 = none ∧
      (transfer demoState "u1" "maker" "BTC" 3 true).1.balances "u1" "BTC"
        = demoState.balances "u1" "BTC" - 3 ∧
      (transfer demoState "u1" "maker" "BTC" 3 true).1.balances "maker" "BTC"
        = demoState.balances "maker" "BTC" + 3) ∨
    ((transfer demoState "u1" "maker" "BTC" 3 true).2 ≠ none ∧
      ∀ u a, (transfer demoState "u1" "maker" "BTC" 3 true).1.balances u a
        = demoState.balances u a) :=
  c2_transfer_atomic demoState "u1" "maker" "BTC" 3 true (by decide)

/-- C8: redeeming an accruing subscription credits the wallet in the
product's asset with exactly principal + principal × (apy/100) ×
(days/365), where days is the elapsed time floored to whole days, and
marks the subscription redeemed with the end date set; at 365 days,
apy 10 and principal 100 the reward is 10, and at 0 days it is 0. -/
theorem c8_redeem_accrual (s : ExchangeState) (uid subId : String) (now : ℕ)
    (sub : EarnSubscription) (prod : EarnProduct)
    (hsub : s.subs subId = some sub) (huid : sub.user_id = uid)
    (hacc : sub.status = SubStatus.accruing)
    (hprod : s.products sub.product_id = some prod) :
    (redeem s uid subId now).2 = none ∧
    (redeem s uid subId now).1.balances uid prod.asset
      = s.balances uid prod.asset + sub.amount
        + redeemReward sub.amount prod.apy (daysElapsed sub.start_date now) ∧
    (redeem s uid subId now).1.subs subId
      = some { sub with status := SubStatus.redeemed, end_date := some now } ∧
    (∀ q p : ℚ, ∀ d : ℕ, redeemReward q p d = q * (p / 100) * ((d : ℚ) / 365)) ∧
    (∀ t d : ℕ, daysElapsed t (t + d) = d / 86400) ∧
    redeemReward 100 10 (daysElapsed 0 (365 * 86400)) = 10 ∧
    (∀ q p : ℚ, redeemReward q p (daysElapsed 0 0) = 0) := by
  have hr : redeem s uid subId now
      = (putSub (setBal s uid prod.asset
            (s.balances uid prod.asset + sub.amount
              + redeemReward sub.amount prod.apy (daysElapsed sub.start_date now)))
          subId { sub with status := SubStatus.redeemed, end_date := some now },
         none) := by
    simp [redeem, hsub, huid, hacc, hprod]
  rw [hr]
  refine ⟨rfl, ?_, ?_, fun q p d => rfl, fun t d => by simp [daysElapsed], ?_, ?_⟩
  · rw [putSub_balances, setBal_self]
  · rw [putSub_subs]
    exact insRec_self _ _ _
  · norm_num [redeemReward, daysElapsed]
  · intro q p
    norm_num [redeemReward, daysElapsed]

/-- C8 witness: on the demo store, `saver` redeems subscription `s1`
(principal 100, apy 10, started at time 0) exactly 365 days later: the
wallet is credited 100 + 10 and the subscription is redeemed. -/
theorem c8_redeem_accrual_witness :
    (redeem demoState "saver" "s1" (365 * 86400)).2 = none ∧
    (redeem demoState "saver" "s1" (365 * 86400)).1.balances "saver"
        demoProduct.asset
      = demoState.balances "saver" demoProduct.asset + demoSub.amount
        + redeemReward demoSub.amount demoProduct.apy
            (daysElapsed demoSub.start_date (365 * 86400)) ∧
    (redeem demoState "saver" "s1" (365 * 86400)).1.subs "s1"
      = some { demoSub with status := SubStatus.redeemed, end_date := some (365 * 86400) } ∧
    (∀ q p : ℚ, ∀ d : ℕ, redeemReward q p d = q * (p / 100) * ((d : ℚ) / 365)) ∧
    (∀ t d : ℕ, daysElapsed t (t + d) = d / 86400) ∧
    redeemReward 100 10 (daysElapsed 0 (365 * 86400)) = 10 ∧
    (∀ q p : ℚ, redeemReward q p (daysElapsed 0 0) = 0) :=
  c8_redeem_accrual demoState "saver" "s1" (365 * 86400) demoSub demoProduct
    (by simp [demoState, insRec]) rfl rfl (by simp [demoState, demoSub, insRec])


/-- C9 (amended): release on a missing trade or one not in escrow fails
with InvalidState regardless of the caller — the state check precedes
the seller check, so a non-seller caller is promised Forbidden only
when the trade is in escrow; in every failure case the store is
unchanged; and a release reports success exactly when the caller is the
seller and the trade is in escrow. -/
theorem c9_release_guards (s : ExchangeState) (callerId tradeId : String) :
    (s.trades tradeId = none →
      p2p_release s callerId tradeId = (s, some ApiError.invalidState)) ∧
    (∀ trade, s.trades tradeId = some trade → trade.status ≠ TrStatus.escrow →
      p2p_release s callerId tradeId = (s, some ApiError.invalidState)) ∧
    (∀ trade, s.trades tradeId = some trade → trade.status = TrStatus.escrow →
      trade.seller_id ≠ callerId →
      p2p_release s callerId tradeId = (s, some ApiError.forbidden)) ∧
    (∀ trade, s.trades tradeId = some trade →
      (p2p_release s callerId tradeId).2 = none →
      trade.status = TrStatus.escrow ∧ trade.seller_id = callerId) ∧
    (∀ trade, s.trades tradeId = some trade → trade.status = TrStatus.escrow →
      trade.seller_id = callerId →
      (p2p_release s callerId tradeId).2 = none) := by
  refine ⟨?_, ?_, ?_, ?_, ?_⟩
  · intro hn
    simp [p2p_release, hn]
  · intro trade ht hst
    simp [p2p_release, ht, hst]
  · intro trade ht hst hsel
    simp [p2p_release, ht, hst, hsel]
  · intro trade ht h2
    by_cases hst : trade.status = TrStatus.escrow
    · by_cases hsel : trade.seller_id = callerId
      · exact ⟨hst, hsel⟩
      · simp [p2p_release, ht, hst, hsel] at h2
    · simp [p2p_release, ht, hst] at h2
  · intro trade ht hst hsel
    simp [p2p_release, ht, hst, hsel]

/-- C9 counterexample: on the demo store, trade `t1` is `released`; a
caller who is not its seller gets InvalidState, not the Forbidden error
the claim promises for every non-seller caller. -/
theorem c9_counterexample :
    "attacker" ≠ demoTradeReleased.seller_id ∧
    p2p_release demoState "attacker" "t1"
      = (demoState, some ApiError.invalidState) ∧
    ApiError.invalidState ≠ ApiError.forbidden := by
  have ht : demoState.trades "t1" = some demoTradeReleased := by decide
  refine ⟨by decide, ?_, by decide⟩
  simp [p2p_release, ht, demoTradeReleased]

/-- C9 witness: on the demo store — a missing trade id fails with
InvalidState; released trade `t1` fails with InvalidState even for its
seller; non-seller `eve` on escrow trade `t2` gets Forbidden; the
seller's release of escrow trade `t2` succeeds. -/
theorem c9_release_guards_witness :
    p2p_release demoState "seller" "nope" = (demoState, some ApiError.invalidState) ∧
    p2p_release demoState "seller" "t1" = (demoState, some ApiError.invalidState) ∧
    p2p_release demoState "eve" "t2" = (demoState, some ApiError.forbidden) ∧
    (p2p_release demoState "seller" "t2").2 = none := by
  refine ⟨?_, ?_, ?_, ?_⟩
  · exact (c9_release_guards demoState "seller" "nope").1 (by decide)
  · exact (c9_release_guards demoState "seller" "t1").2.1 demoTradeReleased
      (by decide) (by decide)
  · exact (c9_release_guards demoState "eve" "t2").2.2.1 demoTradeEscrow
      (by decide) rfl (by decide)
  · exact (c9_release_guards demoState "seller" "t2").2.2.2.2 demoTradeEscrow
      (by decide) rfl rfl

/-- C5 (amended): for every successful P2P open-deal followed by the
seller's successful release of that trade, PROVIDED the buyer and the
seller are distinct users, the seller's balance in the traded asset
decreases by exactly the trade amount, the buyer's increases by exactly
the trade amount, the sum of the two balances is conserved, and the
trade ends `released`. (When a user takes their own offer the code
permits buyer = seller; the single wallet is then restored to its
pre-deal balance, so the per-wallet deltas fail as originally stated.) -/
theorem c5_escrow_open_release_conserves (s : ExchangeState)
    (callerId offerId tradeId : String) (amount : ℚ) (offer : P2POffer)
    (sellerId buyerId : String)
    (hof : s.offers offerId = some offer) (hact : offer.status = "active")
    (hbounds : ¬(amount < offer.min_amount ∨ offer.max_amount < amount))
    (hsell : sellerId = if offer.side = "sell" then offer.user_id else callerId)
    (hbuy : buyerId = if offer.side = "sell" then callerId else offer.user_id)
    (hbal : ¬ s.balances sellerId offer.asset < amount)
    (hne : buyerId ≠ sellerId) :
    (p2p_deal s callerId offerId amount tradeId).2 = none ∧
    (p2p_release (p2p_deal s callerId offerId amount tradeId).1 sellerId
      tradeId).2 = none ∧
    (p2p_release (p2p_deal s callerId offerId amount tradeId).1 sellerId
        tradeId).1.balances sellerId offer.asset
      = s.balances sellerId offer.asset - amount ∧
    (p2p_release (p2p_deal s callerId offerId amount tradeId).1 sellerId
        tradeId).1.balances buyerId offer.asset
      = s.balances buyerId offer.asset + amount ∧
    (p2p_release (p2p_deal s callerId offerId amount tradeId).1 sellerId
        tradeId).1.balances sellerId offer.asset
      + (p2p_release (p2p_deal s callerId offerId amount tradeId).1 sellerId
          tradeId).1.balances buyerId offer.asset
      = s.balances sellerId offer.asset + s.balances buyerId offer.asset ∧
    (p2p_release (p2p_deal s callerId offerId amount tradeId).1 sellerId
        tradeId).1.trades tradeId
      = some ⟨offerId, buyerId, sellerId, offer.asset, amount, offer.price,
              TrStatus.released⟩ := by
  have hdeal : p2p_deal s callerId offerId amount tradeId
      = (putTrade (setBal s sellerId offer.asset
            (s.balances sellerId offer.asset - amount)) tradeId
          ⟨offerId, buyerId, sellerId, offer.asset, amount, offer.price,
           TrStatus.escrow⟩, none) := by
    subst hsell
    subst hbuy
    simp [p2p_deal, hof, hact, hbounds, hbal]
  have htr : (putTrade (setBal s sellerId offer.asset
        (s.balances sellerId offer.asset - amount)) tradeId
        ⟨offerId, buyerId, sellerId, offer.asset, amount, offer.price,
         TrStatus.escrow⟩).trades tradeId
      = some ⟨offerId, buyerId, sellerId, offer.asset, amount, offer.price,
              TrStatus.escrow⟩ := by
    rw [putTrade_trades]
    exact insRec_self _ _ _
  refine ⟨by rw [hdeal], ?_, ?_, ?_, ?_, ?_⟩ <;> rw [hdeal] <;>
    simp [p2p_release, htr, putTrade_balances, setBal_balances_apply, hne,
      Ne.symm hne, putTrade_trades, insRec_self]

/-- C5 counterexample: `alice` takes her own sell offer (`selfState`), so
buyer = seller = `alice`; the deal and her release both succeed and the
trade is recorded with seller `alice` and amount 1, yet her post-release
balance equals her pre-deal balance instead of decreasing by the trade
amount. -/
theorem c5_counterexample :
    (p2p_deal selfState "alice" "of1" 1 "t1").2 = none ∧
    (p2p_release (p2p_deal selfState "alice" "of1" 1 "t1").1 "alice" "t1").2
      = none ∧
    (p2p_release (p2p_deal selfState "alice" "of1" 1 "t1").1 "alice"
        "t1").1.trades "t1"
      = some ⟨"of1", "alice", "alice", "BTC", 1, 100, TrStatus.released⟩ ∧
    (p2p_release (p2p_deal selfState "alice" "of1" 1 "t1").1 "alice"
        "t1").1.balances "alice" "BTC" = selfState.balances "alice" "BTC" ∧
    selfState.balances "alice" "BTC" ≠ selfState.balances "alice" "BTC" - 1 := by
  refine ⟨?_, ?_, ?_, ?_, ?_⟩ <;>
    norm_num [p2p_deal, p2p_release, selfState, selfOffer, putTrade, setBal,
      insRec, String.reduceEq]

/-- C5 witness: on the demo store, `taker` takes `maker`'s sell offer for
2 BTC and `maker` releases: maker drops from 5 to 3, taker rises from 0
to 2, the sum 5 is conserved, and the trade is `released`. -/
theorem c5_escrow_open_release_conserves_witness :
    (p2p_deal demoState "taker" "of1" 2 "tX").2 = none ∧
    (p2p_release (p2p_deal demoState "taker" "of1" 2 "tX").1 "maker" "tX").2
      = none ∧
    (p2p_release (p2p_deal demoState "taker" "of1" 2 "tX").1 "maker"
        "tX").1.balances "maker" demoOffer.asset
      = demoState.balances "maker" demoOffer.asset - 2 ∧
    (p2p_release (p2p_deal demoState "taker" "of1" 2 "tX").1 "maker"
        "tX").1.balances "taker" demoOffer.asset
      = demoState.balances "taker" demoOffer.asset + 2 ∧
    (p2p_release (p2p_deal demoState "taker" "of1" 2 "tX").1 "maker"
        "tX").1.balances "maker" demoOffer.asset
      + (p2p_release (p2p_deal demoState "taker" "of1" 2 "tX").1 "maker"
          "tX").1.balances "taker" demoOffer.asset
      = demoState.balances "maker" demoOffer.asset
        + demoState.balances "taker" demoOffer.asset ∧
    (p2p_release (p2p_deal demoState "taker" "of1" 2 "tX").1 "maker"
        "tX").1.trades "tX"
      = some ⟨"of1", "taker", "maker", demoOffer.asset, 2, demoOffer.price,
              TrStatus.released⟩ :=
  c5_escrow_open_release_conserves demoState "taker" "of1" "tX" 2 demoOffer
    "maker" "taker" (by decide) rfl (by decide) (by decide) (by decide)
    (by decide) (by decide)

end Lavo
